import Mathlib

/-!
Shallow embedding of the signal-detection pipeline of src/main.py
(a Binance trading-signal bot) and proofs about it.

Modelling conventions:
* Prices, volumes and indicator values are rationals; a value that the
  source represents as IEEE NaN (a talib warm-up value) is `none` in
  `Option ℚ`.  Every comparison against NaN is false in Python, which the
  `oLT`/`oGT`/`oLE` helpers reproduce.
* Mutable globals (`open_trades`, `trade_history`, `bot_status`) become
  explicit state records threaded through the functions that mutate them.
* Calls to `save_json` are modelled by returning the value handed to the
  persistence layer (`JsonValue`).
* The indicator kernels (talib, pandas rolling mean) are external libraries;
  their behaviour is modelled from the formulas of spec §4.1, including the
  undefined (NaN) warm-up prefix of each output column.
-/

namespace Binance

/-- One OHLCV row, columns named as in get_market_data (src/main.py:574). -/
structure Candle where
  t : ℚ
  o : ℚ
  h : ℚ
  l : ℚ
  c : ℚ
  v : ℚ
deriving DecidableEq, Repr

/-- The configuration keys of DEFAULT_CONFIG consumed by the core pipeline
(src/main.py:45-57). -/
structure Config where
  rsi_period : ℕ
  rsi_oversold : ℚ
  rsi_overbought : ℚ
  volume_avg_period : ℕ
  volume_factor : ℚ
  ema_short_period : ℕ
  ema_long_period : ℕ
  ema_entry_period : ℕ
  atr_period : ℕ
  atr_stop_loss_factor : ℚ
  atr_take_profit_factor : ℚ
  max_open_trades : ℕ
deriving DecidableEq, Repr

/-- The numeric pipeline parameters of DEFAULT_CONFIG (src/main.py:45-57). -/
def defaultConfig : Config :=
  { rsi_period := 14, rsi_oversold := 30, rsi_overbought := 70
    volume_avg_period := 20, volume_factor := 3/2
    ema_short_period := 50, ema_long_period := 200, ema_entry_period := 20
    atr_period := 14, atr_stop_loss_factor := 1, atr_take_profit_factor := 2
    max_open_trades := 2 }

/-- The largest configured indicator period (spec §4.1: "the largest period"). -/
def maxPeriod (cfg : Config) : ℕ :=
  max (max (max cfg.ema_short_period cfg.ema_long_period)
           (max cfg.ema_entry_period cfg.rsi_period))
      (max cfg.atr_period cfg.volume_avg_period)

/-- Python float comparison a < b where either side may be NaN (`none`):
any comparison involving NaN is false. -/
def oLT : Option ℚ → Option ℚ → Bool
  | some a, some b => decide (a < b)
  | _, _ => false

/-- Python float comparison a > b with NaN treated as in `oLT`. -/
def oGT (a b : Option ℚ) : Bool := oLT b a

/-- Python float comparison a <= b with NaN treated as in `oLT`. -/
def oLE : Option ℚ → Option ℚ → Bool
  | some a, some b => decide (a ≤ b)
  | _, _ => false

/-- Multiplication propagating NaN, as factor * vol_avg does in the source. -/
def oMul : Option ℚ → Option ℚ → Option ℚ
  | some a, some b => some (a * b)
  | _, _ => none

/-- Modelled from the spec (§4.1) for the external talib.EMA call: the
recursive smoothing steps after the seed, with multiplier 2/(period+1). -/
def emaFrom (p : ℕ) (prev : ℚ) : List ℚ → List ℚ
  | [] => []
  | c :: cs =>
    let e := (c - prev) * (2 / ((p : ℚ) + 1)) + prev
    e :: emaFrom p e cs

/-- Modelled from the spec (§4.1): talib.EMA over the close column, seeded by
the simple average of the first p closes.  The first p - 1 outputs are
undefined (NaN); shorter-than-period input yields an all-undefined column. -/
def EMA (closes : List ℚ) (p : ℕ) : List (Option ℚ) :=
  if p = 0 ∨ closes.length < p then closes.map (fun _ => none)
  else
    let seed := (closes.take p).sum / (p : ℚ)
    List.replicate (p - 1) none ++ (seed :: emaFrom p seed (closes.drop p)).map some

/-- Successive differences of a series (close i - close i-1). -/
def diffs : List ℚ → List ℚ
  | a :: b :: rest => (b - a) :: diffs (b :: rest)
  | _ => []

/-- RSI value from Wilder average gain / average loss, scaled to 0-100;
the degenerate flat case (both averages zero) yields 0 as talib does. -/
def rsiOf (ag al : ℚ) : ℚ :=
  if ag + al = 0 then 0 else 100 * ag / (ag + al)

/-- Modelled from the spec (§4.1): one Wilder smoothing step per price change,
emitting the RSI after each step. -/
def wilderRsi (p : ℕ) (ag al : ℚ) : List ℚ → List ℚ
  | [] => []
  | d :: ds =>
    let g := if 0 < d then d else 0
    let lo := if d < 0 then -d else 0
    let ag2 := (ag * ((p : ℚ) - 1) + g) / (p : ℚ)
    let al2 := (al * ((p : ℚ) - 1) + lo) / (p : ℚ)
    rsiOf ag2 al2 :: wilderRsi p ag2 al2 ds

/-- Modelled from the spec (§4.1) for the external talib.RSI call: Wilder
smoothing of average gains/losses over p, seeded by simple averages of the
first p changes; the first p outputs are undefined. -/
def RSI (closes : List ℚ) (p : ℕ) : List (Option ℚ) :=
  if p = 0 ∨ closes.length < p + 1 then closes.map (fun _ => none)
  else
    let ds := diffs closes
    let ag := ((ds.take p).map (fun d => if 0 < d then d else 0)).sum / (p : ℚ)
    let al := ((ds.take p).map (fun d => if d < 0 then -d else 0)).sum / (p : ℚ)
    List.replicate p none ++ (rsiOf ag al :: wilderRsi p ag al (ds.drop p)).map some

/-- True range of each candle after the first, given the previous close. -/
def trList : ℚ → List (ℚ × ℚ × ℚ) → List ℚ
  | _, [] => []
  | pc, (hi, lo, cl) :: rest =>
    max (hi - lo) (max (|hi - pc|) (|lo - pc|)) :: trList cl rest

/-- Wilder smoothing of the true-range series for ATR. -/
def wilderAtr (p : ℕ) (prev : ℚ) : List ℚ → List ℚ
  | [] => []
  | tr :: trs =>
    let a := (prev * ((p : ℚ) - 1) + tr) / (p : ℚ)
    a :: wilderAtr p a trs

/-- Modelled from the spec (§4.1) for the external talib.ATR call: Wilder
smoothing of true range over p, seeded by the simple average of the first p
true ranges; the first p outputs are undefined. -/
def ATR (highs lows closes : List ℚ) (p : ℕ) : List (Option ℚ) :=
  match highs.zip (lows.zip closes) with
  | [] => []
  | (_, _, c0) :: rest =>
    if p = 0 ∨ closes.length < p + 1 then closes.map (fun _ => none)
    else
      let trs := trList c0 rest
      let seed := (trs.take p).sum / (p : ℚ)
      List.replicate p none ++ (seed :: wilderAtr p seed (trs.drop p)).map some

/-- Modelled from the spec (§4.1) for the pandas rolling mean of the volume
column: simple rolling mean, undefined until the window is filled. -/
def rollingMean (xs : List ℚ) (w : ℕ) : List (Option ℚ) :=
  if w = 0 then xs.map (fun _ => none)
  else (List.range xs.length).map (fun i =>
    if i + 1 < w then none
    else some (((xs.drop (i + 1 - w)).take w).sum / (w : ℚ)))

/-- One row of the indicator-augmented dataframe: the raw candle columns plus
the six columns added by calculate_indicators (src/main.py:576-583). -/
structure Sample where
  t : ℚ
  o : ℚ
  h : ℚ
  l : ℚ
  c : ℚ
  v : ℚ
  ema_s : Option ℚ
  ema_l : Option ℚ
  ema_e : Option ℚ
  rsi : Option ℚ
  atr : Option ℚ
  vol_avg : Option ℚ
deriving DecidableEq, Repr

/-- Row-wise attachment of the six indicator columns to the candle rows
(pandas column assignment; all columns have the candle count by
construction). -/
def attachCols : List Candle → List (Option ℚ) → List (Option ℚ) →
    List (Option ℚ) → List (Option ℚ) → List (Option ℚ) → List (Option ℚ) →
    List Sample
  | cd :: ds, s0 :: ss, l0 :: ll, e0 :: ee, r0 :: rr, a0 :: aa, v0 :: vv =>
    { t := cd.t, o := cd.o, h := cd.h, l := cd.l, c := cd.c, v := cd.v
      ema_s := s0, ema_l := l0, ema_e := e0, rsi := r0, atr := a0,
      vol_avg := v0 } :: attachCols ds ss ll ee rr aa vv
  | _, _, _, _, _, _, _ => []

/-- Embeds calculate_indicators (src/main.py:576-583): adds the six indicator
columns to the dataframe.  It has no failure path and performs no length
check of its own. -/
def calculate_indicators (df : List Candle) (cfg : Config) : List Sample :=
  let closes := df.map (·.c)
  attachCols df
    (EMA closes cfg.ema_short_period)
    (EMA closes cfg.ema_long_period)
    (EMA closes cfg.ema_entry_period)
    (RSI closes cfg.rsi_period)
    (ATR (df.map (·.h)) (df.map (·.l)) closes cfg.atr_period)
    (rollingMean (df.map (·.v)) cfg.volume_avg_period)

/-- Signal direction. -/
inductive Direction
  | Long
  | Short
deriving DecidableEq, Repr

/-- The Long entry conjunction exactly as evaluated at src/main.py:633-634
(note the strict comparison of the last RSI against the oversold level). -/
def long_condition (cfg : Config) (long_align : ℕ) (prev last : Sample) : Bool :=
  decide (2 ≤ long_align) && oLT prev.rsi (some cfg.rsi_oversold)
    && oGT last.rsi (some cfg.rsi_oversold)
    && oGT (some last.v) (oMul (some cfg.volume_factor) last.vol_avg)
    && oGT (some last.c) last.ema_e

/-- The Short entry conjunction exactly as evaluated at src/main.py:639-640
(note the strict comparison of the last RSI against the overbought level). -/
def short_condition (cfg : Config) (short_align : ℕ) (prev last : Sample) : Bool :=
  decide (2 ≤ short_align) && oGT prev.rsi (some cfg.rsi_overbought)
    && oLT last.rsi (some cfg.rsi_overbought)
    && oGT (some last.v) (oMul (some cfg.volume_factor) last.vol_avg)
    && oLT (some last.c) last.ema_e

/-- The per-symbol decision of check_signals (src/main.py:633-642): the Long
branch is evaluated first and, when it fires, the Short branch is skipped by
the continue statement. -/
def detectSignal (cfg : Config) (long_align short_align : ℕ)
    (prev last : Sample) : Option Direction :=
  if long_condition cfg long_align prev last then some Direction.Long
  else if short_condition cfg short_align prev last then some Direction.Short
  else none

/-- Modelled from the spec wording of claim C3 (comparison definition, not
source): the Long entry predicate with a NON-strict last-RSI bound. -/
def long_entry_claim (cfg : Config) (long_align : ℕ) (prev last : Sample) : Bool :=
  decide (2 ≤ long_align) && oLT prev.rsi (some cfg.rsi_oversold)
    && oLE (some cfg.rsi_oversold) last.rsi
    && oGT (some last.v) (oMul (some cfg.volume_factor) last.vol_avg)
    && oGT (some last.c) last.ema_e

/-- Modelled from the spec wording of claim C3 (comparison definition, not
source): the Short entry predicate with a NON-strict last-RSI bound. -/
def short_entry_claim (cfg : Config) (short_align : ℕ) (prev last : Sample) : Bool :=
  decide (2 ≤ short_align) && oGT prev.rsi (some cfg.rsi_overbought)
    && oLE last.rsi (some cfg.rsi_overbought)
    && oGT (some last.v) (oMul (some cfg.volume_factor) last.vol_avg)
    && oLT (some last.c) last.ema_e

/-- One step of the higher-timeframe alignment loop (src/main.py:622-626):
empty frames are skipped; otherwise the short and long EMA of the latest row are
compared (a NaN on either side makes both comparisons false). -/
def alignStep (cfg : Config) (acc : ℕ × ℕ) (df : List Candle) : ℕ × ℕ :=
  if df.isEmpty then acc
  else
    match (calculate_indicators df cfg).getLast? with
    | none => acc
    | some s =>
      (if oGT s.ema_s s.ema_l then acc.1 + 1 else acc.1,
       if oLT s.ema_s s.ema_l then acc.2 + 1 else acc.2)

/-- The full alignment count over the configured higher timeframes
(src/main.py:621-626). -/
def alignCounts (cfg : Config) (htfs : List (List Candle)) : ℕ × ℕ :=
  htfs.foldl (alignStep cfg) (0, 0)

/-- The last two rows of a dataframe, as (prev, last) = (iloc[-2], iloc[-1]);
`none` when fewer than two rows exist (pandas raises there, which the caller
catches). -/
def lastTwo (s : List Sample) : Option (Sample × Sample) :=
  match s.reverse with
  | a :: b :: _ => some (b, a)
  | _ => none

/-- Outcome of the entry-timeframe part of evaluating one symbol in
check_signals (src/main.py:628-642). -/
inductive SymbolOutcome
  | skipped
  | rowError
  | signal (d : Direction)
  | noSignal
deriving DecidableEq, Repr

/-- The entry-timeframe part of evaluating one symbol (src/main.py:628-642):
an empty frame is skipped by the emptiness check; a frame with fewer than two
rows raises at iloc[-2] (caught by the per-symbol handler); otherwise the
entry predicates are evaluated on (prev, last). -/
def processEntry (cfg : Config) (long_align short_align : ℕ)
    (df : List Candle) : SymbolOutcome :=
  if df.isEmpty then SymbolOutcome.skipped
  else
    match lastTwo (calculate_indicators df cfg) with
    | none => SymbolOutcome.rowError
    | some (prev, last) =>
      match detectSignal cfg long_align short_align prev last with
      | some d => SymbolOutcome.signal d
      | none => SymbolOutcome.noSignal

/-- One record of the bounded trade history (the dict literal built at
src/main.py:597-600 and 565-568); prices are kept as numbers, since the string formatting in the source is presentation only. -/
structure TradeRecord where
  time : ℚ
  asset : String
  type : String
  entry_price : ℚ
  sl_price : ℚ
deriving DecidableEq, Repr

/-- The value handed to save_json (src/main.py:77-79): either a list of
records, or - what the Python list() builtin applied to a dict produces -
the list of the key names of that dict. -/
inductive JsonValue
  | records (rs : List TradeRecord)
  | keys (ks : List String)
deriving DecidableEq, Repr

/-- deque.appendleft on a deque with maxlen 50 (src/main.py:83): the new
record goes to the front and the deque drops from the right beyond 50. -/
def appendleft50 (x : TradeRecord) (h : List TradeRecord) : List TradeRecord :=
  (x :: h).take 50

/-- A whole sequence of recorded signals applied in order, oldest first. -/
def recordAll (recs : List TradeRecord) (h : List TradeRecord) : List TradeRecord :=
  recs.foldl (fun acc r => appendleft50 r acc) h

/-- The mutable globals touched by the recording path: open_trades
(src/main.py:85) and trade_history (src/main.py:83). -/
structure BotState where
  open_trades : ℕ
  trade_history : List TradeRecord
deriving DecidableEq, Repr

/-- The notification text of process_signal (src/main.py:604-607), reduced to
the three prices it interpolates. -/
structure Message where
  signal_type : String
  symbol : String
  entry : ℚ
  stop_loss : ℚ
  take_profit : ℚ
deriving DecidableEq, Repr

/-- Embeds process_signal (src/main.py:585-609).  Faithful to the source:
the Short branch (line 595) computes tp_price with sl_factor, and the
save_json call (line 602) receives list(trade_entry), i.e. the list of the
dict keys of the new record, not the history. -/
def process_signal (cfg : Config) (now : ℚ) (symbol signal_type : String)
    (entry_price atr : ℚ) (s : BotState) : BotState × JsonValue × Message :=
  let sl_factor := cfg.atr_stop_loss_factor
  let tp_factor := cfg.atr_take_profit_factor
  let prices :=
    if signal_type = "Long" then
      (entry_price - atr * sl_factor, entry_price + atr * tp_factor)
    else
      (entry_price + atr * sl_factor, entry_price - atr * sl_factor)
  let trade_entry : TradeRecord :=
    { time := now, asset := symbol, type := signal_type,
      entry_price := entry_price, sl_price := prices.1 }
  ({ open_trades := s.open_trades + 1,
     trade_history := appendleft50 trade_entry s.trade_history },
   JsonValue.keys ["time", "asset", "type", "entry_price", "sl_price"],
   { signal_type := signal_type, symbol := symbol, entry := entry_price,
     stop_loss := prices.1, take_profit := prices.2 })

/-- The record built by the fake_signal test hook (src/main.py:564-568),
with atr = price * 0.01. -/
def fake_record (cfg : Config) (now price : ℚ) : TradeRecord :=
  { time := now, asset := "BTC/USDT", type := "Long",
    entry_price := price,
    sl_price := price - price * (1/100) * cfg.atr_stop_loss_factor }

/-- Embeds the fake_signal test hook (src/main.py:552-572): prepends a record
to the history and hands list(trade_history) to save_json; open_trades is
not touched. -/
def fake_signal (cfg : Config) (now price : ℚ) (s : BotState) :
    BotState × JsonValue :=
  let hist := appendleft50 (fake_record cfg now price) s.trade_history
  ({ s with trade_history := hist }, JsonValue.records hist)

/-- A sequence of fake signals applied in order (each pair is time, price). -/
def fake_signals (cfg : Config) (fs : List (ℚ × ℚ)) (s : BotState) : BotState :=
  fs.foldl (fun st p => (fake_signal cfg p.1 p.2 st).1) s

/-- The open-trade-cap guard at the top of check_signals (src/main.py:614):
the pass evaluates no symbol when it holds. -/
def skip_pass (cfg : Config) (s : BotState) : Bool :=
  cfg.max_open_trades ≤ s.open_trades

/-- One entry of the telegram_channels list of bot_config (src/main.py:56). -/
structure TgChannel where
  id : ℕ
  name : String
  active : Bool
deriving DecidableEq, Repr

/-- One entry of the telegram_accounts credential list (src/main.py:32-38). -/
structure TgAccount where
  id : ℕ
  token : String
  chat_id : String
  name : String
deriving DecidableEq, Repr

/-- Settled outcome of one channel send.  send_single_telegram_message
(src/main.py:518-525) catches every exception, so an attempt always settles
as one of these and never raises to the caller. -/
inductive SendOutcome
  | delivered
  | failed (err : String)
deriving DecidableEq, Repr

/-- The accounts that get a send task in send_telegram_message
(src/main.py:533-538): each active channel is matched to the first account
with its id (the break), channels without a matching account get no task. -/
def matchedAccounts (channels : List TgChannel) (accounts : List TgAccount) :
    List TgAccount :=
  (channels.filter (fun ch => ch.active)).filterMap
    (fun ch => accounts.find? (fun a => a.id == ch.id))

/-- Embeds send_telegram_message (src/main.py:527-540).  The transport
argument models the external Telegram API: the settled per-channel outcome.
asyncio.gather with return_exceptions collects the outcome of every task; with no
active channel the function returns having sent nothing. -/
def send_telegram_message (transport : TgAccount → SendOutcome)
    (channels : List TgChannel) (accounts : List TgAccount) : List SendOutcome :=
  let active := channels.filter (fun ch => ch.active)
  if active.isEmpty then []
  else (active.filterMap (fun ch => accounts.find? (fun a => a.id == ch.id))).map
    transport

/-- The scheduling-related state for the overlap question: how many
check_signals passes are in progress, how many created tasks have not yet
started, and which timestamp token was last written to
bot_status.last_check. -/
structure RunState where
  running : ℕ
  pending : ℕ
  last_check : ℕ
deriving DecidableEq, Repr

/-- Embeds force_check (src/main.py:547-550): asyncio.create_task is called
unconditionally - with no guard on a pass already running - so the handler
only schedules a new task. -/
def force_check (s : RunState) : RunState :=
  { s with pending := s.pending + 1 }

/-- The event loop starting one scheduled check_signals task: the first
statement of check_signals (src/main.py:613) overwrites
bot_status.last_check before any guard is evaluated. -/
def startPass (now : ℕ) (s : RunState) : RunState :=
  if s.pending = 0 then s
  else { running := s.running + 1, pending := s.pending - 1, last_check := now }

/-- A running check_signals pass finishing. -/
def finishPass (s : RunState) : RunState :=
  { s with running := s.running - 1 }

/-! Concrete inputs used by counterexamples and witnesses. -/

/-- The initial global state: open_trades = 0, empty history
(src/main.py:83-85 with no persisted history). -/
def initState : BotState := { open_trades := 0, trade_history := [] }

/-- A small but fully legal configuration (every period at least 2, thresholds
as in the default); its largest period is the 6 of the long EMA. -/
def cfgSmall : Config :=
  { rsi_period := 2, rsi_oversold := 30, rsi_overbought := 70
    volume_avg_period := 2, volume_factor := 3/2
    ema_short_period := 3, ema_long_period := 6, ema_entry_period := 2
    atr_period := 2, atr_stop_loss_factor := 1, atr_take_profit_factor := 2
    max_open_trades := 2 }

/-- Candle with the given time, close and volume (high/low one off the close). -/
def mkC (i c v : ℚ) : Candle :=
  { t := i, o := c, h := c + 1, l := c - 1, c := c, v := v }

/-- Five candles - fewer than the largest period of cfgSmall (6): three losing
closes, then a recovery candle on quadrupled volume. -/
def df5 : List Candle :=
  [mkC 0 10 10, mkC 1 9 10, mkC 2 8 10, mkC 3 7 10, mkC 4 9 40]

/-- Three rising candles; enough data for the short EMA of cfgSmall but not its
long EMA. -/
def df3 : List Candle := [mkC 0 1 10, mkC 1 2 10, mkC 2 3 10]

/-- A configuration whose short/long EMA periods are 2 and 3, so that three
candles already define both (for the alignment witness). -/
def cfgAlign : Config :=
  { cfgSmall with ema_short_period := 2, ema_long_period := 3 }

/-- The last indicator row of df3 under cfgAlign (short EMA 5/2 above long
EMA 2), used by the alignment witness. -/
def sLast3 : Sample :=
  { t := 2, o := 3, h := 4, l := 2, c := 3, v := 10
    ema_s := some (5/2), ema_l := some 2, ema_e := some (5/2)
    rsi := some 100, atr := some 2, vol_avg := some 10 }

/-- A previous entry-row whose RSI sits below the oversold level. -/
def prevRow : Sample :=
  { t := 0, o := 100, h := 101, l := 99, c := 100, v := 10
    ema_s := none, ema_l := none, ema_e := some 95, rsi := some 25
    atr := some 2, vol_avg := some 10 }

/-- A last entry-row whose RSI equals the oversold level exactly (30), with
volume and close conditions comfortably satisfied. -/
def lastRowBoundary : Sample :=
  { t := 1, o := 100, h := 101, l := 99, c := 100, v := 100
    ema_s := none, ema_l := none, ema_e := some 90, rsi := some 30
    atr := some 2, vol_avg := some 10 }

/-- A last entry-row whose RSI is strictly above the oversold level. -/
def lastRowLong : Sample :=
  { t := 1, o := 100, h := 101, l := 99, c := 100, v := 100
    ema_s := none, ema_l := none, ema_e := some 90, rsi := some 40
    atr := some 2, vol_avg := some 10 }

/-- A trade record used by history witnesses. -/
def recA : TradeRecord :=
  { time := 1, asset := "BTC/USDT", type := "Long", entry_price := 100, sl_price := 90 }

/-- A second trade record used by history witnesses. -/
def recB : TradeRecord :=
  { time := 2, asset := "ETH/USDT", type := "Short", entry_price := 50, sl_price := 55 }

/-- A channel list whose single entry is inactive. -/
def channelsOff : List TgChannel := [{ id := 1, name := "one", active := false }]

/-- Three active channels. -/
def channelsOn : List TgChannel :=
  [{ id := 1, name := "one", active := true },
   { id := 2, name := "two", active := true },
   { id := 3, name := "three", active := true }]

/-- Credentials for the three channels. -/
def accountsABC : List TgAccount :=
  [{ id := 1, token := "t1", chat_id := "c1", name := "one" },
   { id := 2, token := "t2", chat_id := "c2", name := "two" },
   { id := 3, token := "t3", chat_id := "c3", name := "three" }]

/-- A transport on which channel 2 fails and the others deliver. -/
def transportOneBad : TgAccount → SendOutcome :=
  fun a => if a.id = 2 then SendOutcome.failed ("bad credentials") else SendOutcome.delivered

/-! Helper lemmas. -/

/-- Truncating before appending on the right does not change a truncation. -/
theorem take_append_take {α : Type} (A l : List α) (n : ℕ) :
    (A ++ l.take n).take n = (A ++ l).take n := by
  rw [List.take_append_eq_append_take, List.take_append_eq_append_take,
    List.take_take]
  have h : (n - A.length) ⊓ n = n - A.length := Nat.min_eq_left (Nat.sub_le n A.length)
  rw [h]

/-- Folding appendleft50 keeps exactly the 50 newest records, newest first. -/
theorem recordAll_take (recs : List TradeRecord) :
    ∀ h : List TradeRecord, h.length ≤ 50 →
      recordAll recs h = (recs.reverse ++ h).take 50 := by
  induction recs with
  | nil =>
    intro h hh
    simpa [recordAll] using (List.take_of_length_le hh).symm
  | cons r rs ih =>
    intro h hh
    have step : recordAll (r :: rs) h = recordAll rs (appendleft50 r h) := rfl
    have hlen : (appendleft50 r h).length ≤ 50 := by
      simp [appendleft50]
    rw [step, ih _ hlen]
    have : (rs.reverse ++ (appendleft50 r h)).take 50
        = (rs.reverse ++ (r :: h)).take 50 := by
      simpa [appendleft50] using take_append_take rs.reverse (r :: h) 50
    rw [this]
    simp [List.append_assoc]

/-- emaFrom emits one value per input close. -/
theorem emaFrom_length (p : ℕ) :
    ∀ (prev : ℚ) (l : List ℚ), (emaFrom p prev l).length = l.length := by
  intro prev l
  induction l generalizing prev with
  | nil => rfl
  | cons c cs ih => simp [emaFrom, ih]

/-- The EMA column has one entry per close. -/
theorem EMA_length (closes : List ℚ) (p : ℕ) :
    (EMA closes p).length = closes.length := by
  unfold EMA
  split
  · simp
  · rename_i hg
    push_neg at hg
    simp [emaFrom_length]
    omega

/-- diffs has one entry fewer than its input. -/
theorem diffs_length : ∀ l : List ℚ, (diffs l).length = l.length - 1 := by
  intro l
  induction l with
  | nil => rfl
  | cons a tail ih =>
    cases tail with
    | nil => rfl
    | cons b rest => simpa [diffs] using ih

/-- wilderRsi emits one value per price change. -/
theorem wilderRsi_length (p : ℕ) :
    ∀ (ag al : ℚ) (l : List ℚ), (wilderRsi p ag al l).length = l.length := by
  intro ag al l
  induction l generalizing ag al with
  | nil => rfl
  | cons d ds ih => simp [wilderRsi, ih]

/-- The RSI column has one entry per close. -/
theorem RSI_length (closes : List ℚ) (p : ℕ) :
    (RSI closes p).length = closes.length := by
  unfold RSI
  split
  · simp
  · rename_i hg
    push_neg at hg
    simp [wilderRsi_length, diffs_length]
    omega

/-- trList emits one true range per candle after the first. -/
theorem trList_length : ∀ (pc : ℚ) (l : List (ℚ × ℚ × ℚ)),
    (trList pc l).length = l.length := by
  intro pc l
  induction l generalizing pc with
  | nil => rfl
  | cons x rest ih =>
    obtain ⟨hi, lo, cl⟩ := x
    simp [trList, ih]

/-- wilderAtr emits one value per true range. -/
theorem wilderAtr_length (p : ℕ) :
    ∀ (prev : ℚ) (l : List ℚ), (wilderAtr p prev l).length = l.length := by
  intro prev l
  induction l generalizing prev with
  | nil => rfl
  | cons tr trs ih => simp [wilderAtr, ih]

/-- The ATR column has one entry per close when the three inputs agree in
length. -/
theorem ATR_length (highs lows closes : List ℚ) (p : ℕ)
    (hh : highs.length = closes.length) (hl : lows.length = closes.length) :
    (ATR highs lows closes p).length = closes.length := by
  unfold ATR
  cases highs with
  | nil =>
    cases closes with
    | nil => rfl
    | cons c cs => simp at hh
  | cons h0 hs =>
    cases lows with
    | nil =>
      cases closes with
      | nil => simp at hh
      | cons c cs => simp at hl
    | cons l0 ls =>
      cases closes with
      | nil => simp at hh
      | cons c0 cs =>
        simp only [List.zip_cons_cons]
        split
        · simp
        · rename_i hg
          push_neg at hg
          have hh2 : hs.length = cs.length := by simpa using hh
          have hl2 : ls.length = cs.length := by simpa using hl
          have hz : (hs.zip (ls.zip cs)).length = cs.length := by
            simp [List.length_zip, hh2, hl2]
          have ht : (trList c0 (hs.zip (ls.zip cs))).length = cs.length := by
            rw [trList_length, hz]
          simp only [List.length_append, List.length_replicate, List.length_map,
            List.length_cons, wilderAtr_length, List.length_drop, ht,
            List.length_cons]
          have hp : p + 1 ≤ cs.length + 1 := by simpa using hg.2
          omega

/-- The rolling-mean column has one entry per input. -/
theorem rollingMean_length (xs : List ℚ) (w : ℕ) :
    (rollingMean xs w).length = xs.length := by
  unfold rollingMean
  split <;> simp

/-- attachCols preserves the row count when every column has it. -/
theorem attachCols_length : ∀ (df : List Candle) (a b c d e f : List (Option ℚ)),
    a.length = df.length → b.length = df.length → c.length = df.length →
    d.length = df.length → e.length = df.length → f.length = df.length →
    (attachCols df a b c d e f).length = df.length := by
  intro df
  induction df with
  | nil => intro a b c d e f _ _ _ _ _ _; cases a <;> rfl
  | cons cd ds ih =>
    intro a b c d e f ha hb hc hd he hf
    cases a with
    | nil => simp at ha
    | cons a0 as =>
      cases b with
      | nil => simp at hb
      | cons b0 bs =>
        cases c with
        | nil => simp at hc
        | cons c0 cs =>
          cases d with
          | nil => simp at hd
          | cons d0 dsl =>
            cases e with
            | nil => simp at he
            | cons e0 es =>
              cases f with
              | nil => simp at hf
              | cons f0 fs =>
                simp only [attachCols, List.length_cons] at *
                exact congrArg (· + 1) (ih as bs cs dsl es fs
                  (by omega) (by omega) (by omega) (by omega) (by omega) (by omega))

/-- calculate_indicators yields one sample per candle. -/
theorem calculate_indicators_length (df : List Candle) (cfg : Config) :
    (calculate_indicators df cfg).length = df.length := by
  unfold calculate_indicators
  refine attachCols_length df _ _ _ _ _ _ ?_ ?_ ?_ ?_ ?_ ?_
  · simpa using EMA_length (df.map (·.c)) cfg.ema_short_period
  · simpa using EMA_length (df.map (·.c)) cfg.ema_long_period
  · simpa using EMA_length (df.map (·.c)) cfg.ema_entry_period
  · simpa using RSI_length (df.map (·.c)) cfg.rsi_period
  · simpa using ATR_length (df.map (·.h)) (df.map (·.l)) (df.map (·.c))
      cfg.atr_period (by simp) (by simp)
  · simpa using rollingMean_length (df.map (·.v)) cfg.volume_avg_period

/-- A frame with at least two rows always has a (prev, last) pair. -/
theorem lastTwo_isSome (s : List Sample) (hs : 2 ≤ s.length) :
    (lastTwo s).isSome := by
  unfold lastTwo
  cases hr : s.reverse with
  | nil =>
    have h0 : s.reverse.length = 0 := by rw [hr]; rfl
    rw [List.length_reverse] at h0
    omega
  | cons a t =>
    cases t with
    | nil =>
      have h1 : s.reverse.length = 1 := by rw [hr]; rfl
      rw [List.length_reverse] at h1
      omega
    | cons b u => rfl

/-- A strictly smaller short EMA excludes the greater-than comparison. -/
theorem oGT_false_of_oLT (a b : Option ℚ) (h : oLT a b = true) :
    oGT a b = false := by
  cases a with
  | none => simp [oLT] at h
  | some x =>
    cases b with
    | none => simp [oLT] at h
    | some y =>
      simp [oGT, oLT] at h ⊢
      exact le_of_lt h

/-- The two EMA comparisons of the alignment loop cannot both hold. -/
theorem oLT_false_of_oGT (a b : Option ℚ) (h : oGT a b = true) :
    oLT a b = false := by
  cases a with
  | none => simp [oLT]
  | some x =>
    cases b with
    | none => simp [oLT]
    | some y =>
      simp [oGT, oLT] at h ⊢
      exact le_of_lt h

/-- One alignment step increases the two counts by at most one in total. -/
theorem alignStep_sum_le (cfg : Config) (acc : ℕ × ℕ) (df : List Candle) :
    (alignStep cfg acc df).1 + (alignStep cfg acc df).2 ≤ acc.1 + acc.2 + 1 := by
  unfold alignStep
  split
  · omega
  · cases hl : (calculate_indicators df cfg).getLast? with
    | none => dsimp only; omega
    | some s =>
      dsimp only
      by_cases hgt : oGT s.ema_s s.ema_l = true
      · have hlt := oLT_false_of_oGT _ _ hgt
        simp only [hgt, hlt, if_true, Bool.false_eq_true, if_false]
        omega
      · simp only [Bool.not_eq_true] at hgt
        simp only [hgt, Bool.false_eq_true, if_false]
        split <;> omega

/-- Folding alignment steps over a list of frames adds at most its length. -/
theorem alignFold_sum_le (cfg : Config) :
    ∀ (htfs : List (List Candle)) (acc : ℕ × ℕ),
      (htfs.foldl (alignStep cfg) acc).1 + (htfs.foldl (alignStep cfg) acc).2
        ≤ acc.1 + acc.2 + htfs.length := by
  intro htfs
  induction htfs with
  | nil => intro acc; simp
  | cons df rest ih =>
    intro acc
    have h1 := ih (alignStep cfg acc df)
    have h2 := alignStep_sum_le cfg acc df
    simp only [List.foldl_cons, List.length_cons]
    omega

/-- send_telegram_message is exactly the transport mapped over the matched
active channels. -/
theorem send_eq_map (transport : TgAccount → SendOutcome)
    (channels : List TgChannel) (accounts : List TgAccount) :
    send_telegram_message transport channels accounts
      = (matchedAccounts channels accounts).map transport := by
  unfold send_telegram_message matchedAccounts
  by_cases h : (channels.filter (fun ch => ch.active)).isEmpty
  · rw [List.isEmpty_iff] at h
    simp [h]
  · simp [h]

/-! Claim theorems. -/

/-- C1 (code_bug evidence): evaluating process_signal on a Short signal with
entry 100, atr 10 under the default risk factors (sl 1.0, tp 2.0).  The
stop-loss follows the claimed formula (110), and on the Long side both
prices follow it (90 and 120), but the Short take-profit sent in the
notification is 90 = entry - atr * sl_factor, not the claimed
entry - atr * tp_factor = 80: src/main.py:595 multiplies by sl_factor. -/
theorem C1_short_take_profit_eval :
    ((process_signal defaultConfig 0 "BTC/USDT" "Short" 100 10 initState).2.2.stop_loss = 110)
    ∧ ((process_signal defaultConfig 0 "BTC/USDT" "Short" 100 10 initState).2.2.take_profit = 90)
    ∧ ((100 : ℚ) - 10 * defaultConfig.atr_take_profit_factor = 80)
    ∧ ((process_signal defaultConfig 0 "BTC/USDT" "Long" 100 10 initState).2.2.stop_loss = 90)
    ∧ ((process_signal defaultConfig 0 "BTC/USDT" "Long" 100 10 initState).2.2.take_profit = 120) := by
  refine ⟨?_, ?_, ?_, ?_, ?_⟩ <;>
    norm_num [process_signal, defaultConfig, initState] <;>
    rw [if_neg (by decide)]

/-- C2 (counterexample): with one pass already running (running = 1,
last_check token 0), a manual force-check is not dropped - it schedules a
task (pending becomes 1) - and when the event loop starts that task it
overwrites last_check (0 becomes 1) while the first pass is still in
progress, leaving two overlapping passes. -/
theorem C2_overlap_counterexample :
    (force_check { running := 1, pending := 0, last_check := 0 }).pending = 1
    ∧ (startPass 1 (force_check { running := 1, pending := 0, last_check := 0 })).last_check = 1
    ∧ (startPass 1 (force_check { running := 1, pending := 0, last_check := 0 })).running = 2
    ∧ ({ running := 1, pending := 0, last_check := 0 } : RunState).last_check = 0 := by
  refine ⟨rfl, rfl, rfl, rfl⟩

/-- C2 (amended): force_check never drops a trigger - it unconditionally
schedules one more pass whatever the current state - and a scheduled pass,
once started, immediately overwrites last_check and runs concurrently with
any pass already in progress. -/
theorem C2_trigger_always_scheduled (s : RunState) (now : ℕ) :
    (force_check s).pending = s.pending + 1
    ∧ (force_check s).running = s.running
    ∧ (force_check s).last_check = s.last_check
    ∧ (0 < s.pending →
        (startPass now s).last_check = now ∧ (startPass now s).running = s.running + 1) := by
  refine ⟨rfl, rfl, rfl, fun hp => ?_⟩
  unfold startPass
  rw [if_neg (by omega)]
  exact ⟨rfl, rfl⟩

/-- C2 (witness for the amended theorem) at the concrete state of the
counterexample after the trigger. -/
theorem C2_trigger_always_scheduled_witness :
    (0 : ℕ) < 1
    ∧ (startPass 5 { running := 1, pending := 1, last_check := 0 }).last_check = 5
    ∧ (startPass 5 { running := 1, pending := 1, last_check := 0 }).running = 2 := by
  refine ⟨by decide, ?_⟩
  exact (C2_trigger_always_scheduled { running := 1, pending := 1, last_check := 0 } 5).2.2.2
    (by decide)

/-- C4 (code_bug evidence): on a recorded signal, the value handed to
save_json for the history file is the list of the dict key
names - list(trade_entry) at src/main.py:602 - and not the in-memory trade
history (which now holds the new record). -/
theorem C4_saved_value_eval :
    ((process_signal defaultConfig 0 "ETH/USDT" "Long" 95 7 initState).2.1
      = JsonValue.keys ["time", "asset", "type", "entry_price", "sl_price"])
    ∧ ((process_signal defaultConfig 0 "ETH/USDT" "Long" 95 7 initState).2.1
      ≠ JsonValue.records
          (process_signal defaultConfig 0 "ETH/USDT" "Long" 95 7 initState).1.trade_history)
    ∧ ((process_signal defaultConfig 0 "ETH/USDT" "Long" 95 7 initState).1.trade_history
      ≠ []) := by
  refine ⟨rfl, ?_, ?_⟩ <;> simp [process_signal, initState, appendleft50]

/-- C7: for every sequence of recorded signals, starting from any history
within the bound, the history is exactly the 50 newest records in
newest-first order: the new record is at the front and what is evicted is
the oldest tail. -/
theorem C7_history_bound (recs h : List TradeRecord) (hh : h.length ≤ 50) :
    recordAll recs h = (recs.reverse ++ h).take 50
    ∧ (recordAll recs h).length ≤ 50
    ∧ (∀ r : TradeRecord, (appendleft50 r h).head? = some r) := by
  refine ⟨recordAll_take recs h hh, ?_, ?_⟩
  · rw [recordAll_take recs h hh]
    simp
  · intro r
    simp [appendleft50, List.head?_take]

/-- C7 (witness): recording two signals on an empty history leaves them
newest first. -/
theorem C7_history_bound_witness :
    recordAll [recA, recB] [] = [recB, recA]
    ∧ (recordAll [recA, recB] []).length ≤ 50
    ∧ (appendleft50 recA []).head? = some recA := by
  obtain ⟨h1, h2, h3⟩ := C7_history_bound [recA, recB] [] (by simp)
  exact ⟨by rw [h1]; rfl, h2, h3 recA⟩

/-- C10: any number of fake signals leaves open_trades unchanged, so the
open-trade-cap guard of check_signals decides exactly as before; each fake
signal prepends its record to the history. -/
theorem C10_fake_signal_frame (cfg : Config) (fs : List (ℚ × ℚ)) (s : BotState) :
    (fake_signals cfg fs s).open_trades = s.open_trades
    ∧ skip_pass cfg (fake_signals cfg fs s) = skip_pass cfg s
    ∧ (∀ now price : ℚ,
        ((fake_signal cfg now price s).1).trade_history.head?
          = some (fake_record cfg now price)
        ∧ ((fake_signal cfg now price s).1).open_trades = s.open_trades) := by
  have hopen : ∀ (l : List (ℚ × ℚ)) (st : BotState),
      (fake_signals cfg l st).open_trades = st.open_trades := by
    intro l
    induction l with
    | nil => intro st; rfl
    | cons p ps ih =>
      intro st
      exact ih _
  refine ⟨hopen fs s, ?_, ?_⟩
  · unfold skip_pass
    rw [hopen fs s]
  · intro now price
    exact ⟨by simp [fake_signal, appendleft50, List.head?_take], rfl⟩

/-- C6: the dispatch sends to every matched active channel and only settles
after all of them: the result has one settled outcome per matched channel,
the outcome at position i is the transport outcome for that channel alone
- so a failure on one channel cannot change which other channels are attempted
- and with no active channel the dispatch returns empty (a no-op), never an
error. -/
theorem C6_fanout_isolated (transport : TgAccount → SendOutcome)
    (channels : List TgChannel) (accounts : List TgAccount) :
    ((channels.filter (fun ch => ch.active)).isEmpty = true →
      send_telegram_message transport channels accounts = [])
    ∧ (send_telegram_message transport channels accounts).length
        = (matchedAccounts channels accounts).length
    ∧ (∀ i : ℕ, (send_telegram_message transport channels accounts)[i]?
        = ((matchedAccounts channels accounts)[i]?).map transport) := by
  refine ⟨?_, ?_, ?_⟩
  · intro h
    unfold send_telegram_message
    simp [h]
  · rw [send_eq_map]
    simp
  · intro i
    rw [send_eq_map]
    exact List.getElem?_map transport (matchedAccounts channels accounts) i

/-- C6 (witness): with the single channel inactive the dispatch is empty,
and with three active channels of which the second fails, all three
attempts settle with exactly that one failure. -/
theorem C6_fanout_isolated_witness :
    send_telegram_message transportOneBad channelsOff accountsABC = []
    ∧ send_telegram_message transportOneBad channelsOn accountsABC
        = [SendOutcome.delivered, SendOutcome.failed ("bad credentials"),
           SendOutcome.delivered] := by
  constructor
  · exact (C6_fanout_isolated transportOneBad channelsOff accountsABC).1 (by decide)
  · rfl

/-- C8: per symbol the detector yields exactly one of Long, Short or none:
when the Long conjunction holds the result is Long whatever the Short
conjunction says (the source continues past the Short branch); the Short
branch is reached only when the Long conjunction failed; and when neither
holds there is no signal. -/
theorem C8_long_priority (cfg : Config) (la sa : ℕ) (prev last : Sample) :
    (long_condition cfg la prev last = true →
      detectSignal cfg la sa prev last = some Direction.Long)
    ∧ (long_condition cfg la prev last = false →
        short_condition cfg sa prev last = true →
        detectSignal cfg la sa prev last = some Direction.Short)
    ∧ (long_condition cfg la prev last = false →
        short_condition cfg sa prev last = false →
        detectSignal cfg la sa prev last = none) := by
  refine ⟨?_, ?_, ?_⟩ <;> intro h1 <;> try intro h2
  · simp [detectSignal, h1]
  · simp [detectSignal, h1, h2]
  · simp [detectSignal, h1, h2]

/-- C8 (witness): a concrete input satisfying the Long conjunction on which
the detector returns Long (and, the volume/close conditions being shared,
the Short conjunction is false). -/
theorem C8_long_priority_witness :
    long_condition defaultConfig 2 prevRow lastRowLong = true
    ∧ detectSignal defaultConfig 2 2 prevRow lastRowLong = some Direction.Long
    ∧ short_condition defaultConfig 2 prevRow lastRowLong = false := by
  have hl : long_condition defaultConfig 2 prevRow lastRowLong = true := by
    norm_num [long_condition, oLT, oGT, oMul, prevRow, lastRowLong, defaultConfig]
  refine ⟨hl, ?_, ?_⟩
  · exact (C8_long_priority defaultConfig 2 2 prevRow lastRowLong).1 hl
  · norm_num [short_condition, oLT, oGT, oMul, prevRow, lastRowLong, defaultConfig]

/-- C9: the two alignment counts add up to at most the number of higher
timeframes; per timeframe, a latest row with short EMA strictly above the
long EMA adds one to long_count only, strictly below adds one to
short_count only, and an equal or undefined (NaN warm-up) comparison - as
well as an empty frame - contributes to neither count. -/
theorem C9_alignment_counts (cfg : Config) (htfs : List (List Candle)) :
    (alignCounts cfg htfs).1 + (alignCounts cfg htfs).2 ≤ htfs.length
    ∧ (∀ (acc : ℕ × ℕ) (df : List Candle) (s : Sample),
        df.isEmpty = false →
        (calculate_indicators df cfg).getLast? = some s →
        ((oGT s.ema_s s.ema_l = true → alignStep cfg acc df = (acc.1 + 1, acc.2))
         ∧ (oLT s.ema_s s.ema_l = true → alignStep cfg acc df = (acc.1, acc.2 + 1))
         ∧ (oGT s.ema_s s.ema_l = false → oLT s.ema_s s.ema_l = false →
             alignStep cfg acc df = acc)))
    ∧ (∀ (acc : ℕ × ℕ) (df : List Candle),
        df.isEmpty = true → alignStep cfg acc df = acc) := by
  refine ⟨?_, ?_, ?_⟩
  · simpa [alignCounts] using alignFold_sum_le cfg htfs (0, 0)
  · intro acc df s he hs
    unfold alignStep
    simp only [he, Bool.false_eq_true, if_false, hs]
    refine ⟨?_, ?_, ?_⟩
    · intro hgt
      rw [hgt, oLT_false_of_oGT _ _ hgt]
      simp
    · intro hlt
      rw [hlt, oGT_false_of_oLT _ _ hlt]
      simp
    · intro hgt hlt
      rw [hgt, hlt]
      simp
  · intro acc df he
    unfold alignStep
    simp [he]

/-- C9 (witness): a concrete frame whose last row has short EMA 5/2 above
long EMA 2, so one alignment step adds exactly one to long_count. -/
theorem C9_alignment_counts_witness :
    (calculate_indicators df3 cfgAlign).getLast? = some sLast3
    ∧ alignStep cfgAlign (0, 0) df3 = (1, 0) := by
  have hgl : (calculate_indicators df3 cfgAlign).getLast? = some sLast3 := by
    norm_num [calculate_indicators, attachCols, EMA, emaFrom, RSI, diffs, rsiOf,
      wilderRsi, ATR, trList, wilderAtr, rollingMean, df3, mkC, cfgAlign, cfgSmall,
      sLast3, List.range_succ, List.getLast?]
  refine ⟨hgl, ?_⟩
  exact (((C9_alignment_counts cfgAlign [df3]).2.1 (0, 0) df3 sLast3 (by rfl) hgl).1
    (by norm_num [oGT, oLT, sLast3]))

/-- C3 (counterexample): at the boundary where the last RSI equals the
oversold level (30), the claimed non-strict predicate holds - so the claim
requires a Long signal - but the detector returns no signal, because
src/main.py:633 compares the last RSI strictly. -/
theorem C3_boundary_counterexample :
    long_entry_claim defaultConfig 2 prevRow lastRowBoundary = true
    ∧ lastRowBoundary.rsi = some defaultConfig.rsi_oversold
    ∧ detectSignal defaultConfig 2 0 prevRow lastRowBoundary = none := by
  refine ⟨?_, rfl, ?_⟩ <;>
    norm_num [long_entry_claim, detectSignal, long_condition, short_condition,
      oLT, oGT, oLE, oMul, prevRow, lastRowBoundary, defaultConfig]

/-- C3 (amended): with all consumed indicator values defined, a Long signal
is emitted exactly when alignment long_count is at least 2, the previous RSI
is strictly below the oversold level, the last RSI is STRICTLY above it, the
volume exceeds factor times its rolling average, and the close is strictly
above the entry EMA; mirror with strict bounds for Short. -/
theorem C3_strict_rsi_entry (cfg : Config) (la sa : ℕ) (prev last : Sample)
    (pr lr va ee : ℚ)
    (hpr : prev.rsi = some pr) (hlr : last.rsi = some lr)
    (hva : last.vol_avg = some va) (hee : last.ema_e = some ee) :
    (detectSignal cfg la sa prev last = some Direction.Long ↔
      (2 ≤ la ∧ pr < cfg.rsi_oversold ∧ cfg.rsi_oversold < lr
        ∧ cfg.volume_factor * va < last.v ∧ ee < last.c))
    ∧ (detectSignal cfg la sa prev last = some Direction.Short ↔
      (2 ≤ sa ∧ cfg.rsi_overbought < pr ∧ lr < cfg.rsi_overbought
        ∧ cfg.volume_factor * va < last.v ∧ last.c < ee)) := by
  have hL : long_condition cfg la prev last = true ↔
      (2 ≤ la ∧ pr < cfg.rsi_oversold ∧ cfg.rsi_oversold < lr
        ∧ cfg.volume_factor * va < last.v ∧ ee < last.c) := by
    simp [long_condition, hpr, hlr, hva, hee, oLT, oGT, oMul, and_assoc]
  have hS : short_condition cfg sa prev last = true ↔
      (2 ≤ sa ∧ cfg.rsi_overbought < pr ∧ lr < cfg.rsi_overbought
        ∧ cfg.volume_factor * va < last.v ∧ last.c < ee) := by
    simp [short_condition, hpr, hlr, hva, hee, oLT, oGT, oMul, and_assoc]
  by_cases hl : long_condition cfg la prev last = true
  · have hcl : ee < last.c := (hL.mp hl).2.2.2.2
    have hd : detectSignal cfg la sa prev last = some Direction.Long := by
      simp [detectSignal, hl]
    rw [hd]
    constructor
    · constructor
      · intro _
        exact hL.mp hl
      · intro _
        rfl
    · constructor
      · intro h
        simp at h
      · intro h
        exact absurd (h.2.2.2.2.trans hcl) (lt_irrefl last.c)
  · have hl2 : long_condition cfg la prev last = false := by
      simpa using hl
    by_cases hs : short_condition cfg sa prev last = true
    · have hd : detectSignal cfg la sa prev last = some Direction.Short := by
        simp [detectSignal, hl2, hs]
      rw [hd]
      constructor
      · constructor
        · intro h
          simp at h
        · intro h
          exact absurd (hL.mpr h) hl
      · constructor
        · intro _
          exact hS.mp hs
        · intro _
          rfl
    · have hs2 : short_condition cfg sa prev last = false := by
        simpa using hs
      have hd : detectSignal cfg la sa prev last = none := by
        simp [detectSignal, hl2, hs2]
      rw [hd]
      constructor
      · constructor
        · intro h
          simp at h
        · intro h
          exact absurd (hL.mpr h) hl
      · constructor
        · intro h
          simp at h
        · intro h
          exact absurd (hS.mpr h) hs

/-- C3 (witness for the amended theorem): on a last row with RSI 40 strictly
above the oversold 30 and everything else satisfied, the detector emits
Long. -/
theorem C3_strict_rsi_entry_witness :
    detectSignal defaultConfig 2 0 prevRow lastRowLong = some Direction.Long := by
  exact ((C3_strict_rsi_entry defaultConfig 2 0 prevRow lastRowLong 25 40 10 90
    rfl rfl rfl rfl).1).mpr (by norm_num [defaultConfig, prevRow, lastRowLong])

/-- C5 (counterexample): a five-candle frame, shorter than the largest
configured period (6), is not skipped and is not reported as insufficient
data: calculate_indicators returns a partial sample row - its long EMA is
undefined - and check_signals evaluates the predicates on it, emitting a
Long signal. -/
theorem C5_short_series_counterexample :
    df5.length < maxPeriod cfgSmall
    ∧ df5 ≠ []
    ∧ ((calculate_indicators df5 cfgSmall).getLast?.map (fun s => s.ema_l)) = some none
    ∧ processEntry cfgSmall 2 0 df5 = SymbolOutcome.signal Direction.Long := by
  refine ⟨by norm_num [df5, mkC, maxPeriod, cfgSmall], by simp [df5], ?_, ?_⟩ <;>
    norm_num [processEntry, calculate_indicators, attachCols, EMA, emaFrom, RSI,
      diffs, rsiOf, wilderRsi, ATR, trList, wilderAtr, rollingMean, detectSignal,
      long_condition, short_condition, oLT, oGT, oLE, oMul, lastTwo,
      df5, mkC, cfgSmall, List.range_succ, List.getLast?]

/-- C5 (amended): the per-symbol entry evaluation skips a symbol only when
its frame is empty; a frame with a single row fails at iloc[-2] (caught by
the per-symbol handler); any frame with at least two rows - however short
relative to the configured periods - is evaluated by the entry predicates. -/
theorem C5_skip_only_empty (cfg : Config) (la sa : ℕ) (df : List Candle) :
    (processEntry cfg la sa df = SymbolOutcome.skipped ↔ df = [])
    ∧ (2 ≤ df.length →
        processEntry cfg la sa df ≠ SymbolOutcome.skipped
        ∧ processEntry cfg la sa df ≠ SymbolOutcome.rowError) := by
  constructor
  · constructor
    · intro hp
      by_contra hne
      have he : df.isEmpty = false := by
        cases hemp : df.isEmpty
        · rfl
        · exact absurd (List.isEmpty_iff.mp hemp) hne
      unfold processEntry at hp
      simp only [he, Bool.false_eq_true, if_false] at hp
      cases hl : lastTwo (calculate_indicators df cfg) with
      | none => rw [hl] at hp; simp at hp
      | some pl =>
        rw [hl] at hp
        obtain ⟨prev, last⟩ := pl
        cases hds : detectSignal cfg la sa prev last <;>
          simp [hds] at hp
    · intro h
      subst h
      rfl
  · intro hlen
    have he : df.isEmpty = false := by
      cases hemp : df.isEmpty
      · rfl
      · rw [List.isEmpty_iff.mp hemp] at hlen
        simp at hlen
    have hsam : 2 ≤ (calculate_indicators df cfg).length := by
      rw [calculate_indicators_length]
      exact hlen
    obtain ⟨pl, hpl⟩ := Option.isSome_iff_exists.mp (lastTwo_isSome _ hsam)
    unfold processEntry
    simp only [he, Bool.false_eq_true, if_false, hpl]
    obtain ⟨prev, last⟩ := pl
    cases hds : detectSignal cfg la sa prev last <;> simp [hds]

/-- C5 (witness for the amended theorem): the five-candle frame has at least
two rows, so it is neither skipped nor a row error. -/
theorem C5_skip_only_empty_witness :
    (2 : ℕ) ≤ df5.length
    ∧ processEntry cfgSmall 2 0 df5 ≠ SymbolOutcome.skipped
    ∧ processEntry cfgSmall 2 0 df5 ≠ SymbolOutcome.rowError := by
  have h := (C5_skip_only_empty cfgSmall 2 0 df5).2 (by simp [df5])
  exact ⟨by simp [df5], h.1, h.2⟩

end Binance
